import Mathlib

/-!
Shallow embedding of the Paper/Codex theme-rendering engine
(`src/codex.js` and `src/helpers/location.js`).

JS objects whose values are strings are modelled as total lookup functions
`String → Option String` (`Option.none` plays the role of `undefined`);
compiled templates are invokable units `Obj → String`; the Template Store
is `String → Option Tmpl`.  The Handlebars engine is a black box: its
`compile`/`template` operations are fields of the `Paper` structure.
-/

/-- A JS object with string-valued properties, as a total lookup function. -/
abbrev Obj : Type := String → Option String

/-- A compiled template: an invokable unit taking a render context to a string. -/
abbrev Tmpl : Type := Obj → String

/-- The Template Store: logical path → compiled template (`none` = undefined). -/
abbrev Store : Type := String → Option Tmpl

/-- Site settings consumed by `cdnify`.  The empty string models a JS-falsy
(missing or empty) setting, matching JS truthiness for strings. -/
structure CSettings where
  cdn_url : String := ""
  theme_version_id : String := ""
  theme_session_id : String := ""

/-- The Translator collaborator (external to the repo): only `getLocale`
is consumed by the code under verification. -/
structure Translator where
  locale : String

def Translator.getLocale (t : Translator) : String := t.locale

/-- One Codex/Paper orchestrator instance.  `themeCdn` models the optional
`themeSettings.cdn` endpoint map; `hbCompile` models `handlebars.compile`
and `hbTemplate` models `eval` of a precompiled representation followed by
`handlebars.template` — both black-box engine operations. -/
structure Paper where
  settings : CSettings
  themeCdn : Option (List (String × String))
  templates : Store
  translator : Option Translator
  decorators : List (String → String)
  hbCompile : String → Tmpl
  hbTemplate : String → Tmpl

/-- JS line terminators: the characters the regex `.` does not match. -/
def isLineTerm (c : Char) : Bool :=
  c = '\n' || c = '\r' || c.toNat = 0x2028 || c.toNat = 0x2029

/-- The portion of the input a regex `.*` can scan from a given position:
everything up to the next line terminator. -/
def lineOf (s : List Char) : List Char := s.takeWhile (fun c => !isLineTerm c)

/-- Longest prefix of `l` ending in a colon — the greedy match of `.*!?:`
within one line — when `l` contains a colon. -/
def takeThruLastColon (l : List Char) : Option (List Char) :=
  let r := l.reverse.dropWhile (fun c => c != ':')
  if r = [] then Option.none else some r.reverse

/-- Models `path.match(/(.*!?:)/)`: the leftmost-then-greedy match of the scheme
pattern, exactly as the JS regex engine computes it (match attempts advance
one position at a time; `.` never crosses a line terminator; the greedy
match runs through the last colon of the line it matched in). -/
def jsProtoMatch : List Char → Option (List Char)
  | [] => Option.none
  | a :: t =>
    match takeThruLastColon (lineOf (a :: t)) with
    | some m => some m
    | Option.none => jsProtoMatch t

/-- Models `/^(?:https?:)?\/\//.test(path)`: http(s)-absolute or protocol-relative. -/
def absPrefixed (s : List Char) : Bool :=
  "//".toList.isPrefixOf s || "http://".toList.isPrefixOf s ||
    "https://".toList.isPrefixOf s

/-- Models `if (path[0] !== '/') path = '/' + path`. -/
def ensureSlash (l : List Char) : List Char :=
  if l.head? = some '/' then l else '/' :: l

/-- Models `array.join('/')`. -/
def joinSlash (ls : List (List Char)) : List Char := List.intercalate ['/'] ls

/-- Models `themeSettings.cdn.hasOwnProperty(key)` plus the property read. -/
def lookupKey (cm : List (String × String)) (k : List Char) : Option String :=
  (cm.find? (fun pr => pr.1.toList == k)).map (fun pr => pr.2)

/-- The scheme-prefixed branch of `cdnify` (src/codex.js lines 241-268),
given the matched scheme `m` (always ending in a colon) and the input with
the first `m.length` characters removed (`path.slice(match[0].length)`). -/
def cdnifySchemeRest (st : CSettings) (cdnMap : Option (List (String × String)))
    (m rest0 : List Char) : List Char :=
  let cdnUrl := st.cdn_url.toList
  let rest := if rest0.head? = some '/' then rest0.drop 1 else rest0
  if m = "webdav:".toList then joinSlash [cdnUrl, "content".toList, rest]
  else
    match cdnMap with
    | some cm =>
      let endpointKey := m.dropLast
      match lookupKey cm endpointKey with
      | some base =>
        if cdnUrl ≠ [] then joinSlash [base.toList, rest]
        else joinSlash ["/assets/cdn".toList, endpointKey, rest]
      | Option.none => ensureSlash rest
    | Option.none => ensureSlash rest

/-- Function `cdnify` (src/codex.js lines 223-288) on the character list of the path. -/
def cdnifyL (st : CSettings) (cdnMap : Option (List (String × String)))
    (path : List Char) : List Char :=
  if path = [] then []
  else if absPrefixed path then path
  else
    match jsProtoMatch path with
    | some m => cdnifySchemeRest st cdnMap m (path.drop m.length)
    | Option.none =>
      let path1 := if path.head? = some '/' then path else '/' :: path
      if st.theme_version_id = "" then path1
      else
        let path2 := if path1.take 8 = "/assets/".toList then path1.drop 8 else path1
        if st.theme_session_id ≠ "" then
          joinSlash [st.cdn_url.toList, "stencil".toList, st.theme_version_id.toList,
            "e".toList, st.theme_session_id.toList, path2]
        else
          joinSlash [st.cdn_url.toList, "stencil".toList, st.theme_version_id.toList, path2]

/-- Function `cdnify` on strings.  A SafeString input is unwrapped to its underlying
string before processing, so string inputs model both cases. -/
def Paper.cdnify (p : Paper) (s : String) : String :=
  String.mk (cdnifyL p.settings p.themeCdn s.toList)

/-- JS object property assignment on the Store (`templates[path] = v`). -/
def storeSet (st : Store) (k : String) (v : Tmpl) : Store :=
  fun q => if q = k then some v else st q

/-- One iteration of the `_.each` loop in `loadTemplates` (src/codex.js
lines 154-160): skip paths already present, otherwise materialize the
precompiled representation and insert it. -/
def loadStep (hbT : String → Tmpl) (st : Store) (pr : String × String) : Store :=
  if (st pr.1).isSome then st else storeSet st pr.1 (hbT pr.2)

/-- The whole `_.each` loop over the assembler's batch. -/
def loadStore (hbT : String → Tmpl) (st : Store) (batch : List (String × String)) : Store :=
  batch.foldl (loadStep hbT) st

/-- The success path of `loadTemplates`: insert the assembler's batch,
skipping already-present paths. -/
def Paper.loadTemplatesOk (p : Paper) (batch : List (String × String)) : Paper :=
  { p with templates := loadStore p.hbTemplate p.templates batch }

/-- Function `loadTemplates` (src/codex.js lines 144-166), with the assembler's
response as input: on error the callback receives the error and the store
is untouched; on success the batch is inserted and the callback receives
no error.  The result pairs the callback's error channel with the
orchestrator state after the call. -/
def Paper.loadTemplates (p : Paper) (res : Except String (List (String × String))) :
    Except String Unit × Paper :=
  match res with
  | Except.error e => (Except.error e, p)
  | Except.ok batch => (Except.ok (), p.loadTemplatesOk batch)

/-- One iteration of `loadTemplatesSync` (src/codex.js lines 190-192):
compile and assign unconditionally. -/
def syncStep (hbC : String → Tmpl) (st : Store) (pr : String × String) : Store :=
  storeSet st pr.1 (hbC pr.2)

/-- The whole `_.each` loop of `loadTemplatesSync`. -/
def syncStore (hbC : String → Tmpl) (st : Store) (batch : List (String × String)) : Store :=
  batch.foldl (syncStep hbC) st

/-- Function `loadTemplatesSync` (src/codex.js lines 187-197). -/
def Paper.loadTemplatesSync (p : Paper) (batch : List (String × String)) : Paper :=
  { p with templates := syncStore p.hbCompile p.templates batch }

/-- The last raw source supplied for a path in a sync batch (JS object
literals/iteration make the last assignment for a key win). -/
def lastSrc : List (String × String) → String → Option String
  | [], _ => Option.none
  | pr :: t, q =>
    match lastSrc t q with
    | some s => some s
    | Option.none => if pr.1 = q then some pr.2 else Option.none

/-- The context object the compiled template is invoked with: `render`
(src/codex.js lines 305-310) sets `context.template = path` and, when a
translator is present, `context.locale_name = translator.getLocale()`. -/
def Paper.renderCtx (p : Paper) (path : String) (c : Obj) : Obj :=
  let c1 : Obj := fun k => if k = "template" then some path else c k
  match p.translator with
  | some t => fun k => if k = "locale_name" then some t.getLocale else c1 k
  | Option.none => c1

/-- Function `render` (src/codex.js lines 302-319).  `Option.none` models the
TypeError thrown when `templates[path]` is undefined; on success the
template's output is folded through the decorator list left-to-right. -/
def Paper.render (p : Paper) (path : String) (c : Obj) : Option String :=
  match p.templates path with
  | Option.none => Option.none
  | some tmpl => some (p.decorators.foldl (fun out d => d out) (tmpl (p.renderCtx path c)))

/-- The `templatePath` argument of `renderTheme`: undefined, a single
string, or an array of strings. -/
inductive TPathArg where
  | noPath : TPathArg
  | one : String → TPathArg
  | many : List String → TPathArg

/-- JS truthiness of `templatePath` (undefined and the empty string are
falsy; every array is truthy). -/
def tpTruthy : TPathArg → Bool
  | TPathArg.noPath => false
  | TPathArg.one s => s ≠ ""
  | TPathArg.many _ => true

/-- Models `_.isArray(templatePath)`. -/
def tpIsArr : TPathArg → Bool
  | TPathArg.many _ => true
  | _ => false

/-- The `data` argument of `renderTheme`: `remote` is its JS truthiness. -/
structure ThemeData where
  remote : Bool
  remote_data : Obj
  context : Obj

/-- Models `_.extend({}, base, over)`: properties of `over` win on collision. -/
def extendObj (base over : Obj) : Obj :=
  fun k =>
    match over k with
    | some v => some v
    | Option.none => base k

/-- JS object property assignment on a rendered-content table (`table[file]
= html`): overwrite in place when the key exists, append otherwise. -/
def jsObjSet (t : List (String × String)) (k v : String) : List (String × String) :=
  if t.any (fun pr => pr.1 = k) then
    t.map (fun pr => if pr.1 = k then (k, v) else pr)
  else t ++ [(k, v)]

/-- The `templatePath.reduce` loop of `renderTheme` (src/codex.js lines
344-347); a throwing render aborts the whole reduce. -/
def renderList (p : Paper) (c : Obj) (acc : List (String × String)) :
    List String → Option (List (String × String))
  | [] => some acc
  | f :: t =>
    match p.render f c with
    | Option.none => Option.none
    | some r => renderList p c (jsObjSet acc f r) t

/-- Rendered HTML as produced by `renderTheme`: a single string or a
path → html table. -/
inductive HtmlOut where
  | single : String → HtmlOut
  | table : List (String × String) → HtmlOut

/-- The value `renderTheme` returns: plain HTML, `{data, content}` for a
remote request, or `{data}` alone. -/
inductive ThemeOut where
  | page : HtmlOut → ThemeOut
  | ajax : Obj → HtmlOut → ThemeOut
  | dataOnly : Obj → ThemeOut

/-- Function `renderTheme` (src/codex.js lines 327-371).  `Option.none` models a
throw from an inner `render`.  In the non-ajax branch an undefined
`templatePath` reaches `templates[undefined]`, i.e. the property key
"undefined" after JS key coercion. -/
def Paper.renderTheme (p : Paper) (tp : TPathArg) (data : ThemeData) : Option ThemeOut :=
  if data.remote || tpIsArr tp then
    let ctx := if data.remote then extendObj data.context data.remote_data else data.context
    if tpTruthy tp then
      let html :=
        match tp with
        | TPathArg.many ps => (renderList p ctx [] ps).map HtmlOut.table
        | TPathArg.one q => (p.render q ctx).map HtmlOut.single
        | TPathArg.noPath => Option.none
      match html with
      | Option.none => Option.none
      | some h => some (if data.remote then ThemeOut.ajax data.remote_data h else ThemeOut.page h)
    else some (ThemeOut.dataOnly data.remote_data)
  else
    let q := match tp with | TPathArg.one s => s | _ => "undefined"
    (p.render q data.context).map (fun s => ThemeOut.page (HtmlOut.single s))

/-- What a location helper call produces: a plain string, or a Handlebars
SafeString whose wrapped value may be undefined; `thrown` models a
TypeError escaping the helper. -/
inductive HelperRes where
  | plain : String → HelperRes
  | safe : Option String → HelperRes
  | thrown : HelperRes

/-- How Handlebars stringifies a SafeString or plain helper result:
SafeString.toString is `'' + this.string`, so a wrapped undefined renders
as the text "undefined". -/
def helperResText : HelperRes → Option String
  | HelperRes.plain s => some s
  | HelperRes.safe (some s) => some s
  | HelperRes.safe Option.none => some "undefined"
  | HelperRes.thrown => Option.none

/-- JS truthiness of a possibly-undefined string property. -/
def jsTruthyStr : Option String → Bool
  | some s => s ≠ ""
  | Option.none => false

/-- The state the location helpers read: `paper.context` (with its optional
`locations` mapping) and `paper.content` (ditto), each possibly undefined. -/
structure LocPaper where
  contextLocations : Option (Option Obj)
  contentLocations : Option (Option Obj)

/-- First variant of the location helper (src/helpers/location.js lines
3-14): guards `paper.context`/`paper.context.locations`, then tests
`paper.context.locations[id]` for truthiness but reads the content from
`paper.content.locations[id]` — a TypeError when `paper.content` (or its
`locations`) is undefined. -/
def locationHelper1 (paper : LocPaper) (locationId : String) : HelperRes :=
  match paper.contextLocations with
  | Option.none => HelperRes.plain ""
  | some Option.none => HelperRes.plain ""
  | some (some locs) =>
    if jsTruthyStr (locs locationId) then
      match paper.contentLocations with
      | Option.none => HelperRes.thrown
      | some Option.none => HelperRes.thrown
      | some (some clocs) => HelperRes.safe (clocs locationId)
    else HelperRes.safe (some "")

/-- Second variant of the location helper (src/helpers/location.js lines
18-28): same guard, then returns
`new SafeString(paper.context.locations[locationId]) || ''`; the `|| ''`
is dead code because the SafeString object is always truthy, so an absent
identifier yields a SafeString wrapping undefined. -/
def locationHelper2 (ctxLocations : Option (Option Obj)) (locationId : String) : HelperRes :=
  match ctxLocations with
  | Option.none => HelperRes.plain ""
  | some Option.none => HelperRes.plain ""
  | some (some locs) => HelperRes.safe (locs locationId)

/-- Everything up to and including the last colon of the whole path — the
claim's description of the stripped scheme (empty when no colon). -/
def takeThruLastColonAll (l : List Char) : List Char :=
  (takeThruLastColon l).getD []

/-- Site settings used throughout the spec's worked examples. -/
def exSettings : CSettings :=
  { cdn_url := "https://cdn.example.com", theme_version_id := "v1", theme_session_id := "" }

def emptyObj : Obj := fun _ => Option.none

def noTemplates : Store := fun _ => Option.none

def homeStore : Store :=
  fun k => if k = "home" then some (fun _ => "HOME") else Option.none

def twoStore : Store :=
  fun k =>
    if k = "t1" then some (fun _ => "ONE")
    else if k = "t2" then some (fun _ => "TWO")
    else Option.none

def basePaper : Paper :=
  { settings := exSettings
    themeCdn := Option.none
    templates := noTemplates
    translator := some { locale := "en" }
    decorators := []
    hbCompile := fun src _ => src
    hbTemplate := fun src _ => src }

def imgPaper : Paper := { basePaper with themeCdn := some [("img", "https://img.cdn.com")] }

def homePaper : Paper := { basePaper with templates := homeStore }

def twoPaper : Paper := { basePaper with templates := twoStore }

def remoteData : ThemeData :=
  { remote := true
    remote_data := fun k => if k = "x" then some "1" else Option.none
    context := fun _ => Option.none }

def noRemoteData : ThemeData :=
  { remote := false
    remote_data := fun k => if k = "x" then some "1" else Option.none
    context := fun _ => Option.none }

def locsBanner : Obj := fun k => if k = "banner" then some "X" else Option.none

/- Helper lemmas about the Store operations. -/

theorem loadStep_preserves (hbT : String → Tmpl) (st : Store) (pr : String × String)
    (q : String) (h : (st q).isSome) : loadStep hbT st pr q = st q := by
  unfold loadStep storeSet
  by_cases hp : (st pr.1).isSome
  · simp [hp]
  · simp only [hp, Bool.false_eq_true, if_false]
    by_cases hq : q = pr.1
    · subst hq; exact absurd h hp
    · simp [hq]

theorem loadStep_self_isSome (hbT : String → Tmpl) (st : Store) (pr : String × String) :
    (loadStep hbT st pr pr.1).isSome := by
  unfold loadStep storeSet
  by_cases hp : (st pr.1).isSome
  · simp [hp]
  · simp [hp]

theorem loadStore_preserves (hbT : String → Tmpl) (batch : List (String × String)) :
    ∀ (st : Store) (q : String), (st q).isSome → loadStore hbT st batch q = st q := by
  induction batch with
  | nil => intro st q _; rfl
  | cons pr t ih =>
    intro st q h
    have h1 : loadStep hbT st pr q = st q := loadStep_preserves hbT st pr q h
    have h2 : (loadStep hbT st pr q).isSome := by rw [h1]; exact h
    calc loadStore hbT st (pr :: t) q = loadStore hbT (loadStep hbT st pr) t q := rfl
      _ = loadStep hbT st pr q := ih _ q h2
      _ = st q := h1

theorem loadStore_mem_isSome (hbT : String → Tmpl) (batch : List (String × String)) :
    ∀ (st : Store) (q : String), q ∈ batch.map Prod.fst →
      (loadStore hbT st batch q).isSome := by
  induction batch with
  | nil => intro st q h; simp at h
  | cons pr t ih =>
    intro st q h
    simp only [List.map_cons, List.mem_cons] at h
    cases h with
    | inl h =>
      subst h
      have hs : (loadStep hbT st pr pr.1).isSome := loadStep_self_isSome hbT st pr
      have : loadStore hbT st (pr :: t) pr.1 = loadStore hbT (loadStep hbT st pr) t pr.1 := rfl
      rw [this, loadStore_preserves hbT t _ pr.1 hs]
      exact hs
    | inr h => exact ih (loadStep hbT st pr) q h

theorem syncStore_lookup (hbC : String → Tmpl) (batch : List (String × String)) :
    ∀ (st : Store) (q : String),
      syncStore hbC st batch q =
        match lastSrc batch q with
        | some src => some (hbC src)
        | Option.none => st q := by
  induction batch with
  | nil => intro st q; rfl
  | cons pr t ih =>
    intro st q
    have hstep : syncStore hbC st (pr :: t) q = syncStore hbC (syncStep hbC st pr) t q := rfl
    rw [hstep, ih]
    cases hc : lastSrc t q with
    | some s => simp [lastSrc, hc]
    | none =>
      simp only [lastSrc, hc]
      by_cases hq : pr.1 = q
      · subst hq; simp [syncStep, storeSet]
      · have hq' : ¬q = pr.1 := fun he => hq he.symm
        simp [hq, hq', syncStep, storeSet]

/- Helper lemmas about the scheme-match regex. -/

theorem takeThruLastColon_of_mem (l : List Char) (h : ':' ∈ l) :
    takeThruLastColon l = some (takeThruLastColonAll l) := by
  have hr : l.reverse.dropWhile (fun c => c != ':') ≠ [] := by
    intro he
    have hall := List.dropWhile_eq_nil_iff.mp he ':' (List.mem_reverse.mpr h)
    simp at hall
  unfold takeThruLastColonAll takeThruLastColon
  simp [hr]

theorem jsProtoMatch_noLineTerm (s : List Char)
    (hlt : ∀ c ∈ s, isLineTerm c = false) (hc : ':' ∈ s) :
    jsProtoMatch s = some (takeThruLastColonAll s) := by
  cases s with
  | nil => simp at hc
  | cons a t =>
    have hline : lineOf (a :: t) = a :: t := by
      unfold lineOf
      apply List.takeWhile_eq_self_iff.mpr
      intro c hcmem
      simp [hlt c hcmem]
    unfold jsProtoMatch
    rw [hline, takeThruLastColon_of_mem _ hc]

/-- C1: for every orchestrator whose settings give
cdn_url = "https://cdn.example.com", theme_version_id = "v1" and no
theme_session_id, cdnify maps "" to "", returns http-absolute and
protocol-relative paths unchanged, rewrites "/assets/img.png" to
"https://cdn.example.com/stencil/v1/img.png" and "webdav:/foo/bar" to
"https://cdn.example.com/content/foo/bar"; with the img CDN endpoint
additionally configured, "img:/a.png" maps to "https://img.cdn.com/a.png". -/
theorem c1_cdnify_table (p q : Paper)
    (hp : p.settings = exSettings) (hpc : p.themeCdn = Option.none)
    (hq : q.settings = exSettings)
    (hqc : q.themeCdn = some [("img", "https://img.cdn.com")]) :
    p.cdnify "" = "" ∧
    p.cdnify "http://x.com/a" = "http://x.com/a" ∧
    p.cdnify "//x.com/a" = "//x.com/a" ∧
    p.cdnify "/assets/img.png" = "https://cdn.example.com/stencil/v1/img.png" ∧
    p.cdnify "webdav:/foo/bar" = "https://cdn.example.com/content/foo/bar" ∧
    q.cdnify "img:/a.png" = "https://img.cdn.com/a.png" := by
  unfold Paper.cdnify
  rw [hp, hpc, hq, hqc]
  refine ⟨?_, ?_, ?_, ?_, ?_, ?_⟩ <;> decide

/-- Witness for C1 at two concrete orchestrator instances. -/
theorem c1_cdnify_table_wit :
    basePaper.cdnify "" = "" ∧
    basePaper.cdnify "http://x.com/a" = "http://x.com/a" ∧
    basePaper.cdnify "//x.com/a" = "//x.com/a" ∧
    basePaper.cdnify "/assets/img.png" = "https://cdn.example.com/stencil/v1/img.png" ∧
    basePaper.cdnify "webdav:/foo/bar" = "https://cdn.example.com/content/foo/bar" ∧
    imgPaper.cdnify "img:/a.png" = "https://img.cdn.com/a.png" :=
  c1_cdnify_table basePaper imgPaper rfl rfl rfl rfl

/-- C2: a successful loadTemplates call whose assembler batch includes an
already-present path leaves the Store's entry for that path unchanged
(first load wins, the later source is silently ignored). -/
theorem c2_load_idempotent (p : Paper) (batch : List (String × String)) (q : String)
    (hpresent : (p.templates q).isSome) (hmem : q ∈ batch.map Prod.fst) :
    (p.loadTemplates (Except.ok batch)).1 = Except.ok () ∧
    (p.loadTemplates (Except.ok batch)).2.templates q = p.templates q :=
  ⟨rfl, loadStore_preserves p.hbTemplate batch p.templates q hpresent⟩

/-- Witness for C2: re-loading the already-present path "home". -/
theorem c2_load_idempotent_wit :
    (homePaper.loadTemplates (Except.ok [("home", "NEW")])).1 = Except.ok () ∧
    (homePaper.loadTemplates (Except.ok [("home", "NEW")])).2.templates "home" =
      homePaper.templates "home" :=
  c2_load_idempotent homePaper [("home", "NEW")] "home" rfl (by simp)

/-- C3: when the assembler reports an error, loadTemplates hands that same
error to the callback unchanged and the orchestrator state — in particular
the Template Store — is exactly as before the call. -/
theorem c3_loader_error (p : Paper) (e : String) :
    p.loadTemplates (Except.error e) = (Except.error e, p) := rfl

/-- C4: rendering a path absent from the Store fails at the point of
invocation, and after a successful loadTemplates call whose batch includes
the path, rendering that path succeeds. -/
theorem c4_render_lookup (p : Paper) (q : String) (c : Obj)
    (batch : List (String × String))
    (habsent : p.templates q = Option.none) (hmem : q ∈ batch.map Prod.fst) :
    p.render q c = Option.none ∧
    (p.loadTemplates (Except.ok batch)).1 = Except.ok () ∧
    ∃ out, (p.loadTemplates (Except.ok batch)).2.render q c = some out := by
  refine ⟨?_, rfl, ?_⟩
  · unfold Paper.render
    rw [habsent]
  · obtain ⟨tmpl, ht⟩ := Option.isSome_iff_exists.mp
      (loadStore_mem_isSome p.hbTemplate batch p.templates q hmem)
    exact ⟨_, by
      unfold Paper.render
      rw [show (p.loadTemplates (Except.ok batch)).2.templates q = some tmpl from ht]⟩

/-- Witness for C4: "home" is absent from basePaper, and is rendered
successfully after loading a batch containing it. -/
theorem c4_render_lookup_wit :
    basePaper.render "home" emptyObj = Option.none ∧
    (basePaper.loadTemplates (Except.ok [("home", "SRC")])).1 = Except.ok () ∧
    ∃ out, (basePaper.loadTemplates (Except.ok [("home", "SRC")])).2.render "home" emptyObj =
      some out :=
  c4_render_lookup basePaper "home" emptyObj [("home", "SRC")] rfl (by simp)

/-- C5: renderTheme on a remote request with template list ["t1", "t2"]
whose paths render successfully returns the remote data together with a
content table mapping each path to its render, all paths rendered with the
same (remote-merged) context. -/
theorem c5_renderTheme_remote_list (p : Paper) (data : ThemeData) (r1 r2 : String)
    (hremote : data.remote = true)
    (h1 : p.render "t1" (extendObj data.context data.remote_data) = some r1)
    (h2 : p.render "t2" (extendObj data.context data.remote_data) = some r2) :
    p.renderTheme (TPathArg.many ["t1", "t2"]) data =
      some (ThemeOut.ajax data.remote_data (HtmlOut.table [("t1", r1), ("t2", r2)])) := by
  unfold Paper.renderTheme
  rw [hremote]
  simp only [tpIsArr, Bool.true_or, if_true, tpTruthy]
  unfold renderList
  rw [h1]
  unfold renderList
  rw [h2]
  simp [jsObjSet, renderList]

/-- Witness for C5 at a concrete two-template orchestrator. -/
theorem c5_renderTheme_remote_list_wit :
    twoPaper.renderTheme (TPathArg.many ["t1", "t2"]) remoteData =
      some (ThemeOut.ajax remoteData.remote_data
        (HtmlOut.table [("t1", "ONE"), ("t2", "TWO")])) :=
  c5_renderTheme_remote_list twoPaper remoteData "ONE" "TWO" rfl rfl rfl

/-- C6 counterexample: with no templatePath but data.remote falsy,
renderTheme does not return the data-only result — it falls into the
non-ajax branch, looks the undefined path up in the Store and throws. -/
theorem c6_noPath_cex :
    basePaper.renderTheme TPathArg.noPath noRemoteData ≠
      some (ThemeOut.dataOnly noRemoteData.remote_data) := by
  have h : basePaper.renderTheme TPathArg.noPath noRemoteData = Option.none := rfl
  rw [h]
  exact fun hc => Option.noConfusion hc

/-- C6 amended: for every data with data.remote set and no templatePath
given, renderTheme returns the remote data only — no content, no HTML. -/
theorem c6_noPath_remote (p : Paper) (data : ThemeData) (hremote : data.remote = true) :
    p.renderTheme TPathArg.noPath data = some (ThemeOut.dataOnly data.remote_data) := by
  unfold Paper.renderTheme
  rw [hremote]
  rfl

/-- Witness for the amended C6. -/
theorem c6_noPath_remote_wit :
    basePaper.renderTheme TPathArg.noPath remoteData =
      some (ThemeOut.dataOnly remoteData.remote_data) :=
  c6_noPath_remote basePaper remoteData rfl

/-- C7 evidence: the first location-helper variant throws when the
identifier's content is truthy but paper.content is undefined (it reads
paper.content.locations instead of the caller-supplied mapping), and the
second variant wraps undefined for an absent identifier — which Handlebars
renders as the text "undefined", not the empty string. -/
theorem c7_location_helper_bug :
    locationHelper1
      { contextLocations := some (some locsBanner), contentLocations := Option.none }
      "banner" = HelperRes.thrown ∧
    locationHelper2 (some (some (fun _ => Option.none))) "other" =
      HelperRes.safe Option.none ∧
    helperResText (HelperRes.safe Option.none) = some "undefined" :=
  ⟨rfl, rfl, rfl⟩

/-- C8: render injects template = path and (when a translator is present)
locale_name = translator.getLocale() into the caller's context before
invoking the compiled template, and touches no other field of the caller's
context. -/
theorem c8_render_ctx_frame (p : Paper) (path : String) (c : Obj) :
    (p.renderCtx path c) "template" = some path ∧
    (∀ t, p.translator = some t →
      (p.renderCtx path c) "locale_name" = some t.getLocale) ∧
    (p.translator = Option.none →
      (p.renderCtx path c) "locale_name" = c "locale_name") ∧
    (∀ k, k ≠ "template" → k ≠ "locale_name" → (p.renderCtx path c) k = c k) ∧
    (∀ tmpl, p.templates path = some tmpl →
      p.render path c =
        some (p.decorators.foldl (fun out d => d out) (tmpl (p.renderCtx path c)))) := by
  refine ⟨?_, ?_, ?_, ?_, ?_⟩
  · unfold Paper.renderCtx
    cases p.translator with
    | none => simp
    | some t => simp
  · intro t ht
    unfold Paper.renderCtx
    rw [ht]
    simp
  · intro ht
    unfold Paper.renderCtx
    rw [ht]
    simp
  · intro k hk1 hk2
    unfold Paper.renderCtx
    cases p.translator with
    | none => simp [hk1]
    | some t => simp [hk1, hk2]
  · intro tmpl ht
    unfold Paper.render
    rw [ht]

/-- Witness for C8 at a concrete render context. -/
theorem c8_render_ctx_frame_wit :
    (basePaper.renderCtx "home" emptyObj) "template" = some "home" ∧
    (basePaper.renderCtx "home" emptyObj) "locale_name" = some "en" ∧
    (basePaper.renderCtx "home" emptyObj) "foo" = emptyObj "foo" :=
  ⟨(c8_render_ctx_frame basePaper "home" emptyObj).1,
   (c8_render_ctx_frame basePaper "home" emptyObj).2.1 { locale := "en" } rfl,
   (c8_render_ctx_frame basePaper "home" emptyObj).2.2.2.1 "foo" (by decide) (by decide)⟩

/-- C9: loadTemplatesSync compiles and inserts every supplied pair
unconditionally — the last source supplied for a path wins, overwriting
any existing Store entry — whereas loadTemplates skips paths already
present in the Store. -/
theorem c9_sync_overwrites (p : Paper) (batch : List (String × String))
    (q : String) (src : String) :
    (lastSrc batch q = some src →
      (p.loadTemplatesSync batch).templates q = some (p.hbCompile src)) ∧
    (lastSrc batch q = Option.none →
      (p.loadTemplatesSync batch).templates q = p.templates q) ∧
    ((p.templates q).isSome →
      (p.loadTemplates (Except.ok batch)).2.templates q = p.templates q) := by
  refine ⟨?_, ?_, ?_⟩
  · intro h
    have hl := syncStore_lookup p.hbCompile batch p.templates q
    rw [h] at hl
    exact hl
  · intro h
    have hl := syncStore_lookup p.hbCompile batch p.templates q
    rw [h] at hl
    exact hl
  · intro h
    exact loadStore_preserves p.hbTemplate batch p.templates q h

/-- Witness for C9: a sync batch writing "home" twice overwrites the
existing entry with the last source, while loadTemplates leaves it alone. -/
theorem c9_sync_overwrites_wit :
    (homePaper.loadTemplatesSync [("home", "s1"), ("home", "s2")]).templates "home" =
      some (homePaper.hbCompile "s2") ∧
    (homePaper.loadTemplates (Except.ok [("home", "s1"), ("home", "s2")])).2.templates "home" =
      homePaper.templates "home" :=
  ⟨(c9_sync_overwrites homePaper [("home", "s1"), ("home", "s2")] "home" "s2").1 rfl,
   (c9_sync_overwrites homePaper [("home", "s1"), ("home", "s2")] "home" "s2").2.2 rfl⟩

/-- C10 counterexample: the scheme regex dot does not cross line
terminators and the code slices by the match's length from the front, so
for "a:\nb:c" — a non-empty, non-absolute path containing colons — the
result differs from stripping everything through the last colon of the
whole path before resolving the remainder. -/
theorem c10_greedy_cex :
    ("a:\nb:c".toList ≠ [] ∧ absPrefixed "a:\nb:c".toList = false ∧
      ':' ∈ "a:\nb:c".toList) ∧
    cdnifyL exSettings Option.none "a:\nb:c".toList ≠
      cdnifySchemeRest exSettings Option.none (takeThruLastColonAll "a:\nb:c".toList)
        ("a:\nb:c".toList.drop (takeThruLastColonAll "a:\nb:c".toList).length) := by
  decide

/-- C10 amended: every non-empty path that is not http(s)-absolute or
protocol-relative, contains a colon, and contains no line-terminator
character is treated as scheme-prefixed, with everything up to and
including the last colon stripped as the scheme before the remainder is
resolved. -/
theorem c10_greedy_line (st : CSettings) (cdnMap : Option (List (String × String)))
    (path : List Char) (h0 : path ≠ []) (h1 : absPrefixed path = false)
    (h2 : ∀ c ∈ path, isLineTerm c = false) (h3 : ':' ∈ path) :
    cdnifyL st cdnMap path =
      cdnifySchemeRest st cdnMap (takeThruLastColonAll path)
        (path.drop (takeThruLastColonAll path).length) := by
  unfold cdnifyL
  rw [jsProtoMatch_noLineTerm path h2 h3]
  simp [h0, h1]

/-- Witness for the amended C10 on a colon-rich single-line path. -/
theorem c10_greedy_line_wit :
    cdnifyL exSettings Option.none "foo:bar:baz".toList =
      cdnifySchemeRest exSettings Option.none
        (takeThruLastColonAll "foo:bar:baz".toList)
        ("foo:bar:baz".toList.drop (takeThruLastColonAll "foo:bar:baz".toList).length) :=
  c10_greedy_line exSettings Option.none "foo:bar:baz".toList
    (by decide) (by decide) (by decide) (by decide)
